import Mathlib

/-!
Verification development for the protocol interception and relay engine:
shallow embeddings of the SOCKS5 UDP datagram receiver, the SMTP greeting
state machine, the proxy-float HTTPS forward writers, the websocket block
path, the backend metrics emission and the HTTP header map conversions,
together with theorems about them.
-/

namespace G3

namespace Socks5UdpRecv

/-- Errors of the remote UDP receive path, mirroring `UdpCopyRemoteError`
from `g3_io_ext` as used by `recv.rs` (the spec lists the four variants
RecvFailed, InvalidPacket, RemoteSessionClosed, RemoteSessionError); io
errors are represented by their message. -/
inductive UdpCopyRemoteError where
  | RecvFailed (e : String)
  | InvalidPacket (msg : String)
  | RemoteSessionClosed
  | RemoteSessionError (e : String)
deriving DecidableEq

/-- Result of polling the control tcp stream once, as observed by
`check_ctl_stream`: the poll is pending, ready with `n` bytes filled into
the 4-byte probe buffer, or ready with an io error. -/
inductive CtlProbe where
  | pending
  | readOk (n : Nat)
  | readErr (e : String)
deriving DecidableEq

/-- Result of `inner.poll_recv` for the single-packet path: pending, an io
error, or a datagram (its bytes) written into the caller's buffer. -/
inductive RecvOutcome where
  | pending
  | recvErr (e : String)
  | recvOk (data : List Nat)
deriving DecidableEq

/-- Result of `inner.poll_batch_recvmsg` for the batched path: pending, an
io error, or the list of received datagrams, each one being the bytes
filled into the front of its packet buffer. -/
inductive BatchRecvOutcome where
  | pending
  | recvErr (e : String)
  | recvOk (ds : List (List Nat))
deriving DecidableEq

/-- `std::task::Poll`. -/
inductive Poll (α : Type) where
  | pending
  | ready (a : α)
deriving DecidableEq

/-- The mutable state of `ProxySocks5UdpConnectRemoteRecv`: its two boolean
flags. The inner socket and the control stream are modelled as per-call
inputs (`CtlProbe`, `RecvOutcome`, `BatchRecvOutcome`). -/
structure RecvState where
  end_on_control_closed : Bool
  ignore_ctl_stream : Bool
deriving DecidableEq

/-- `ProxySocks5UdpConnectRemoteRecv::new`: `ignore_ctl_stream` starts false. -/
def RecvState.new (end_on_control_closed : Bool) : RecvState :=
  { end_on_control_closed := end_on_control_closed, ignore_ctl_stream := false }

def MAX_MSG_SIZE : Nat := 4

/-- `check_ctl_stream` from `recv.rs`: probe the control stream; on EOF
either fail with `RemoteSessionClosed` (when `end_on_control_closed`) or
set `ignore_ctl_stream`; a full 4-byte read is unexpected data; 1-3 bytes
are drained and tolerated. Returns the updated state and the optional
error. -/
def check_ctl_stream (s : RecvState) (probe : CtlProbe) :
    RecvState × Option UdpCopyRemoteError :=
  match probe with
  | .pending => (s, none)
  | .readOk n =>
    if n = 0 then
      if s.end_on_control_closed then
        (s, some .RemoteSessionClosed)
      else
        ({ s with ignore_ctl_stream := true }, none)
    else if n = MAX_MSG_SIZE then
      (s, some (.RemoteSessionError "unexpected data received in ctl stream"))
    else
      (s, none)
  | .readErr e => (s, some (.RemoteSessionError e))

/-- Modelled from the spec: `UdpInput::parse_header` (crate `g3-socks`) is
not among the provided sources. Per the spec the SOCKS5 UDP encapsulation
header is "a fixed encapsulation header preceding UDP payloads
(address-type-tagged destination address/port followed by payload)" whose
worst-case size is 256 + 4 + 2 (address field max + port + type bytes):
reserved and fragment bytes, an address-type byte (1 = IPv4, 3 = domain
preceded by a length byte, 4 = IPv6), the address bytes and a 2-byte port.
The result is the payload offset; a malformed or truncated header is an
error. -/
def parse_header (buf : List Nat) : Except String Nat :=
  match buf with
  | _r0 :: _r1 :: _frag :: atyp :: rest =>
    let addrPort : Except String Nat :=
      if atyp = 1 then .ok (4 + 2)
      else if atyp = 4 then .ok (16 + 2)
      else if atyp = 3 then
        match rest with
        | len :: _ => .ok (1 + len + 2)
        | [] => .error "invalid udp packet"
      else .error "invalid address type"
    match addrPort with
    | .error e => .error e
    | .ok l => if 4 + l ≤ buf.length then .ok (4 + l) else .error "invalid udp packet"
  | _ => .error "invalid udp packet"

/-- A received datagram written into the front of the caller's buffer. -/
def writeInto (buf data : List Nat) : List Nat :=
  data ++ buf.drop data.length

/-- The receive-then-parse tail of `poll_recv_packet` (everything after the
control-stream check): receive one datagram into `buf`, parse the SOCKS5
UDP header of the whole buffer, and on success set
`end_on_control_closed`. -/
def recv_phase (s : RecvState) (recv : RecvOutcome) (buf : List Nat) :
    RecvState × Poll (Except UdpCopyRemoteError (Nat × Nat)) :=
  match recv with
  | .pending => (s, .pending)
  | .recvErr e => (s, .ready (.error (.RecvFailed e)))
  | .recvOk data =>
    match parse_header (writeInto buf data) with
    | .error e => (s, .ready (.error (.InvalidPacket e)))
    | .ok off =>
      ({ s with end_on_control_closed := true }, .ready (.ok (off, data.length)))

/-- The control-stream step shared verbatim by both receive paths of
`recv.rs`: the probe is skipped when `ignore_ctl_stream` is set. -/
def ctl_phase (s : RecvState) (probe : CtlProbe) :
    RecvState × Option UdpCopyRemoteError :=
  if s.ignore_ctl_stream then (s, none) else check_ctl_stream s probe

/-- `poll_recv_packet` from `recv.rs`. -/
def poll_recv_packet (s : RecvState) (probe : CtlProbe) (recv : RecvOutcome)
    (buf : List Nat) : RecvState × Poll (Except UdpCopyRemoteError (Nat × Nat)) :=
  match ctl_phase s probe with
  | (s1, some e) => (s1, .ready (.error e))
  | (s1, none) => recv_phase s1 recv buf

/-- The per-datagram header parsing loop of the batched path: each header
is parsed independently on that packet's received bytes, and the first
malformed header fails the whole batch with `InvalidPacket`. -/
def parse_packets : List (List Nat) → Except UdpCopyRemoteError (List (Nat × Nat))
  | [] => .ok []
  | d :: rest =>
    match parse_header d with
    | .error e => .error (.InvalidPacket e)
    | .ok off =>
      match parse_packets rest with
      | .error e => .error e
      | .ok ms => .ok ((off, d.length) :: ms)

/-- `poll_recv_packets` from `recv.rs` (the batched receive path): the same
control-stream probe once, one batched receive, a per-packet header parse,
per-packet (offset, length) metadata as result, and on success
`end_on_control_closed` is set. -/
def poll_recv_packets (s : RecvState) (probe : CtlProbe) (recv : BatchRecvOutcome) :
    RecvState × Poll (Except UdpCopyRemoteError (List (Nat × Nat))) :=
  match ctl_phase s probe with
  | (s1, some e) => (s1, .ready (.error e))
  | (s1, none) =>
    match recv with
    | .pending => (s1, .pending)
    | .recvErr e => (s1, .ready (.error (.RecvFailed e)))
    | .recvOk ds =>
      match parse_packets ds with
      | .error e => (s1, .ready (.error e))
      | .ok ms => ({ s1 with end_on_control_closed := true }, .ready (.ok ms))

/-- `max_hdr_len` from `recv.rs`. -/
def max_hdr_len : Nat := 256 + 4 + 2

/-- A well-formed sample datagram: SOCKS5 UDP IPv4 header (payload offset
10) and no payload bytes. -/
def sampleDatagram : List Nat := [0, 0, 0, 1, 192, 0, 2, 1, 0, 80]

end Socks5UdpRecv

namespace SmtpGreeting

/-- Modelled from the spec: the reply parser (`ResponseParser` of crate
`g3-smtp-proto`) is not among the provided sources. Its observable state
here is the reply code of the last fed line and whether the multi-line
reply is finished. -/
structure ResponseParser where
  code : Nat
  finished : Bool
deriving DecidableEq

/-- `ResponseParser::default()`. -/
def ResponseParser.new : ResponseParser := { code := 0, finished := false }

/-- Modelled from the spec: the errors of feeding one line to the reply
parser (`ResponseLineError` of crate `g3-smtp-proto`); a line is rejected
when it has no CRLF terminator, is shorter than a 3-digit code, has a
non-digit code or an invalid separator after the code. -/
inductive ResponseLineError where
  | tooShort
  | invalidCode
  | invalidDelimiter
deriving DecidableEq

def CR : Char := Char.ofNat 13

def LF : Char := Char.ofNat 10

def SP : Char := Char.ofNat 32

/-- Strip the final CRLF of a line, refusing lines not ending in CRLF. -/
def strip_crlf (line : List Char) : Option (List Char) :=
  match line.reverse with
  | nl :: cr :: restRev =>
    if nl = LF && cr = CR then some restRev.reverse else none
  | _ => none

def digitVal (c : Char) : Nat := c.toNat - 48

/-- Modelled from the spec: `ResponseParser::feed_line`. The spec describes
the wire format as "line-terminated ASCII response banners (SMTP-style
reply code + optional continuation + message)": a 3-digit reply code
followed by nothing (finished, empty message), a space (finished) or a
dash (continuation), then the message tail. Returns the updated parser and
the message tail without the CRLF. -/
def feed_line (_p : ResponseParser) (line : List Char) :
    Except ResponseLineError (ResponseParser × List Char) :=
  match strip_crlf line with
  | none => .error .invalidDelimiter
  | some body =>
    match body with
    | c1 :: c2 :: c3 :: rest =>
      if c1.isDigit && c2.isDigit && c3.isDigit then
        let code := digitVal c1 * 100 + digitVal c2 * 10 + digitVal c3
        match rest with
        | [] => .ok ({ code := code, finished := true }, [])
        | sep :: msg =>
          if sep = SP then .ok ({ code := code, finished := true }, msg)
          else if sep = '-' then .ok ({ code := code, finished := false }, msg)
          else .error .invalidDelimiter
      else .error .invalidCode
    | _ => .error .tooShort

/-- `ReplyCode::SERVICE_READY` (SMTP 220). -/
def SERVICE_READY : Nat := 220

/-- `ReplyCode::NO_SERVICE` (SMTP 554). -/
def NO_SERVICE : Nat := 554

/-- Modelled from the spec: `Host` (crate `g3-types`) is not among the
provided sources; a host is kept as its textual form. -/
abbrev Host := String

def is_host_char (c : Char) : Bool :=
  c.isAlphanum || c = '.' || c = '-' || c = ':'

/-- Modelled from the spec: `Host::parse_smtp_host_address` (crate
`g3-types`) is not among the provided sources. It accepts a non-empty
domain or ip address token and rejects anything else ("an unparseable host
token is a fatal error"). -/
def parse_smtp_host_address (tok : List Char) : Option Host :=
  if tok.isEmpty then none
  else if tok.all is_host_char then some (String.mk tok) else none

/-- The `Greeting` struct of `greeting.rs`. -/
structure Greeting where
  host : Host
  rsp : ResponseParser
  total_to_write : Nat
deriving DecidableEq

/-- `Greeting::new`. -/
def Greeting.new : Greeting :=
  { host := "", rsp := ResponseParser.new, total_to_write := 0 }

/-- One interaction of the `do_relay` loop with its environment: a line
arrives from upstream (with the outcome of the subsequent buffered client
write: `none` means the write succeeded, `some e` a client write error),
or reading the line fails, or upstream closes, or the line exceeds the
bound. -/
inductive LineInput where
  | line (s : List Char) (clientWrite : Option String)
  | readErr (e : String)
  | closed
  | tooLong
deriving DecidableEq

/-- `GreetingError` from `greeting.rs`; io errors are represented by their
message. -/
inductive GreetingError where
  | Timeout
  | InvalidResponseLine (e : ResponseLineError)
  | TooLongResponseLine
  | UnexpectedReplyCode (c : Nat)
  | NoHostField
  | UnsupportedHostFormat
  | ClientWriteFailed (e : String)
  | UpstreamReadFailed (e : String)
  | UpstreamClosed
deriving DecidableEq

/-- The host token of a service-ready message: the tail up to the first
space (`memchr(b' ', msg)`), or the whole tail when there is no space. -/
def host_token (msg : List Char) : List Char :=
  match msg.findIdx? (fun c => c = SP) with
  | some d => msg.take d
  | none => msg

/-- The `SERVICE_READY` arm of `do_relay`: when no host is resolved yet,
extract and parse the host token of `msg`, failing with `NoHostField` on
an empty token and `UnsupportedHostFormat` on an unparseable one. -/
def handle_service_ready (g : Greeting) (msg : List Char) :
    Except GreetingError Greeting :=
  if g.host = "" then
    let host_d := host_token msg
    if host_d.isEmpty then .error .NoHostField
    else
      match parse_smtp_host_address host_d with
      | none => .error .UnsupportedHostFormat
      | some h => .ok { g with host := h }
  else .ok g

/-- How `do_relay` ends: returning the upstream reader, failing, or (in
this finite model) running out of input, which stands for a read that is
still pending when the overall deadline fires. -/
inductive RelayOutcome where
  | ok
  | err (e : GreetingError)
  | starved
deriving DecidableEq

/-- `do_relay` from `greeting.rs`, driven by a finite list of upstream
events. Returns the final `Greeting` state, the lines fully written to the
buffered client writer in order, and the outcome. -/
def do_relay (g : Greeting) : List LineInput → Greeting × List (List Char) × RelayOutcome
  | [] => (g, [], .starved)
  | input :: rest =>
    match input with
    | .readErr e => (g, [], .err (.UpstreamReadFailed e))
    | .closed => (g, [], .err .UpstreamClosed)
    | .tooLong => (g, [], .err .TooLongResponseLine)
    | .line s cw =>
      match feed_line g.rsp s with
      | .error e => (g, [], .err (.InvalidResponseLine e))
      | .ok (rsp1, msg) =>
        let g1 : Greeting :=
          { g with rsp := rsp1, total_to_write := g.total_to_write + s.length }
        match cw with
        | some e => (g1, [], .err (.ClientWriteFailed e))
        | none =>
          if rsp1.code = SERVICE_READY then
            match handle_service_ready g1 msg with
            | .error e => (g1, [s], .err e)
            | .ok g2 =>
              if rsp1.finished then (g2, [s], .ok)
              else
                let r := do_relay g2 rest
                (r.1, s :: r.2.1, r.2.2)
          else if rsp1.code = NO_SERVICE then
            if rsp1.finished then (g1, [s], .ok)
            else
              let r := do_relay g1 rest
              (r.1, s :: r.2.1, r.2.2)
          else (g1, [s], .err (.UnexpectedReplyCode rsp1.code))

/-- `relay` from `greeting.rs`: run `do_relay` under the overall deadline
with a buffered client writer. The boolean of the result records whether
the buffered writer was flushed before returning. A starved run stands for
the deadline firing, which flushes and reports `Timeout`; a client write
failure suppresses the flush; every other outcome flushes. -/
def relay (g : Greeting) (inputs : List LineInput) :
    Greeting × List (List Char) × Bool × Except GreetingError Unit :=
  match do_relay g inputs with
  | (g1, ws, .ok) => (g1, ws, true, .ok ())
  | (g1, ws, .starved) => (g1, ws, true, .error .Timeout)
  | (g1, ws, .err e) =>
    match e with
    | .ClientWriteFailed m => (g1, ws, false, .error (.ClientWriteFailed m))
    | _ => (g1, ws, true, .error e)

/-- The reason string `reply_no_service` derives from the error kind;
`none` for the error kinds that produce no synthetic response. -/
def greeting_error_reason : GreetingError → Option String
  | .Timeout => some "read timeout"
  | .InvalidResponseLine _ => some "invalid response"
  | .UnexpectedReplyCode _ => some "unexpected reply code"
  | .UpstreamReadFailed _ => some "read failed"
  | .UpstreamClosed => some "connection closed"
  | _ => none

/-- Modelled from the spec: `ResponseEncoder::upstream_service_not_ready`
(crate `g3-smtp-proto`) is not among the provided sources. Per the spec it
synthesizes a "service not ready" response "embedding the server's own
address and a short reason string derived from the error kind". -/
def upstream_service_not_ready (server_ip : String) (reason : String) : List Char :=
  ("554 " ++ server_ip ++ " upstream service not ready - " ++ reason ++ "\r\n").toList

/-- The externally visible actions `reply_no_service` may perform on the
client writer, in order. -/
inductive ClientAction where
  | wroteBytes (bytes : List Char)
  | flushedWriter
  | didShutdown
deriving DecidableEq

/-- `reply_no_service` from `greeting.rs`: a no-op when any byte has
already been forwarded (`total_to_write > 0`) or when the error kind has
no client-facing reason; otherwise write the synthesized response, flush
and shut the client side down. -/
def reply_no_service (g : Greeting) (e : GreetingError) (server_ip : String) :
    List ClientAction :=
  if g.total_to_write > 0 then []
  else
    match greeting_error_reason e with
    | none => []
    | some reason =>
      [.wroteBytes (upstream_service_not_ready server_ip reason),
       .flushedWriter, .didShutdown]

end SmtpGreeting

namespace ProxyFloatHttps

/-- The shared, read-only peer configuration used by `writer.rs`: the
optional absolute expiry instant (an instant on a discrete time line) and
the headers to append in proxy absolute-form requests. -/
structure ProxyFloatHttpsPeerSharedConfig where
  expire_instant : Option Nat
  append_http_headers : List String
deriving DecidableEq

/-- `Instant::checked_duration_since`: `later - earlier`, or `none` when
`earlier` is later than `later`. -/
def checked_duration_since (later earlier : Nat) : Option Nat :=
  if earlier ≤ later then some (later - earlier) else none

/-- Modelled from the spec: `HttpProxyClientRequest` (crate `g3-http`) is
not among the provided sources; only the parts a request line and header
block need are kept. -/
structure HttpProxyClientRequest where
  method : String
  uri : String
  headers : List String
deriving DecidableEq

/-- Modelled from the spec: `send_req_header_via_proxy` (module
`http_forward`) is not among the provided sources. Per the spec the proxy
absolute-form variant writes the request line "addressed through the
proxy, carrying the extra configured headers". Returns the lines written. -/
def send_req_header_via_proxy (req : HttpProxyClientRequest) (upstream : String)
    (append_headers : List String) : List String :=
  (req.method ++ " http://" ++ upstream ++ req.uri ++ " HTTP/1.1\r\n")
    :: (req.headers ++ append_headers ++ ["\r\n"])

/-- Modelled from the spec: `send_req_header_to_origin` (module
`http_forward`) is not among the provided sources. Per the spec the
origin-form variant writes the request line "addressed directly, no extra
headers". Returns the lines written. -/
def send_req_header_to_origin (req : HttpProxyClientRequest) : List String :=
  (req.method ++ " " ++ req.uri ++ " HTTP/1.1\r\n") :: (req.headers ++ ["\r\n"])

/-- The expiry gate both `send_request_header` impls of `writer.rs` start
with: with `expire_instant` set, fail when
`expire.checked_duration_since(now).is_none()`. -/
def config_expired (config : ProxyFloatHttpsPeerSharedConfig) (now : Nat) : Bool :=
  match config.expire_instant with
  | some expire => (checked_duration_since expire now).isNone
  | none => false

/-- `HttpsPeerHttpForwardWriter` (the proxy absolute-form variant): its
shared config and the upstream address. The inner writer is left abstract;
what a call writes to it is returned explicitly. -/
structure HttpsPeerHttpForwardWriter where
  config : ProxyFloatHttpsPeerSharedConfig
  upstream : String
deriving DecidableEq

/-- `HttpsPeerHttpForwardWriter::send_request_header` from `writer.rs`:
the expiry check, then the proxy-form header write. Returns the lines
written to the inner writer and the result. -/
def HttpsPeerHttpForwardWriter.send_request_header (w : HttpsPeerHttpForwardWriter)
    (now : Nat) (req : HttpProxyClientRequest) : List String × Except String Unit :=
  if config_expired w.config now then ([], .error "connection has expired")
  else (send_req_header_via_proxy req w.upstream w.config.append_http_headers, .ok ())

/-- `HttpsPeerHttpRequestWriter` (the origin-form variant): its shared
config. -/
structure HttpsPeerHttpRequestWriter where
  config : ProxyFloatHttpsPeerSharedConfig
deriving DecidableEq

/-- `HttpsPeerHttpRequestWriter::send_request_header` from `writer.rs`:
the expiry check, then the origin-form header write. Returns the lines
written to the inner writer and the result. -/
def HttpsPeerHttpRequestWriter.send_request_header (w : HttpsPeerHttpRequestWriter)
    (now : Nat) (req : HttpProxyClientRequest) : List String × Except String Unit :=
  if config_expired w.config now then ([], .error "connection has expired")
  else (send_req_header_to_origin req, .ok ())

end ProxyFloatHttps

namespace WebsocketH1

/-- The error type returned by the websocket intercept branches; only the
variant `do_block` constructs is modelled, carrying its message
(`ServerTaskError` of the serve layer is not among the provided sources). -/
inductive ServerTaskError where
  | InternalAdapterError (msg : String)
deriving DecidableEq

/-- Modelled from the spec: `ServerCloseFrame::encode_with_status_code`
(websocket close frame sent to the client) is not among the provided
sources; the spec fixes it as a 4-byte frame for status code 1001: close
opcode, length 2, and the code in big-endian. -/
def SERVER_CLOSE_BYTES : List Nat := [0x88, 0x02, 0x03, 0xE9]

/-- Modelled from the spec: `ClientCloseFrame::encode_with_status_code`
(masked websocket close frame sent to the upstream) is not among the
provided sources; the spec fixes it as an 8-byte frame for status code
1001: close opcode, masked length 2, a 4-byte mask and the masked code. -/
def CLIENT_CLOSE_BYTES : List Nat := [0x88, 0x82, 0, 0, 0, 0, 0x03, 0xE9]

/-- The simulated behaviour of the two writers `do_block` touches: whether
the write-and-flush of the close frame succeeds and whether the subsequent
shutdown succeeds, per side. -/
structure BlockIoBehavior where
  clt_write_ok : Bool
  clt_shutdown_ok : Bool
  ups_write_ok : Bool
  ups_shutdown_ok : Bool
deriving DecidableEq

/-- Observable actions on one peer during `do_block`. -/
inductive PeerAction where
  | wroteFlushed (bytes : List Nat)
  | writeFailed
  | shutdownOk
  | shutdownFailed
deriving DecidableEq

/-- One direction of the block teardown: `write_all_flush` of the close
frame and, only if it succeeded, a best-effort shutdown; every error is
discarded. -/
def close_sequence (write_ok shutdown_ok : Bool) (bytes : List Nat) : List PeerAction :=
  if write_ok then
    [.wroteFlushed bytes, if shutdown_ok then .shutdownOk else .shutdownFailed]
  else [.writeFailed]

/-- `do_block` from `h1.rs`: the upstream-direction close runs as a spawned
concurrent unit sending `CLIENT_CLOSE_BYTES`, the client direction sends
`SERVER_CLOSE_BYTES`, and the branch returns the fixed administrative
error. Returns (upstream actions, client actions, result). -/
def do_block (b : BlockIoBehavior) :
    List PeerAction × List PeerAction × Except ServerTaskError Unit :=
  (close_sequence b.ups_write_ok b.ups_shutdown_ok CLIENT_CLOSE_BYTES,
   close_sequence b.clt_write_ok b.clt_shutdown_ok SERVER_CLOSE_BYTES,
   .error (.InternalAdapterError "websocket blocked by inspection policy"))

end WebsocketH1

namespace FcgenMetrics

/-- `i64::MAX`. -/
def I64_MAX : Nat := 2 ^ 63 - 1

/-- `i64::try_from` on an unsigned counter value: succeeds exactly when the
value is representable. -/
def i64_try_from (v : Nat) : Option Int :=
  if v ≤ I64_MAX then some (v : Int) else none

/-- Modelled from the spec: `BackendStats` (crate `g3fcgen`) is not among
the provided sources; per the spec it carries "four monotonic counters —
refresh attempts, refresh successes, request attempts, request successes",
which `take_refresh_total`, `take_refresh_ok`, `take_request_total` and
`take_request_ok` drain. -/
structure BackendStats where
  refresh_total : Nat
  refresh_ok : Nat
  request_total : Nat
  request_ok : Nat
deriving DecidableEq

/-- The per-counter conversion of `emit_stats`:
`i64::try_from(v).unwrap_or(i64::MAX)`. -/
def emit_value (v : Nat) : Int :=
  (i64_try_from v).getD ((I64_MAX : Nat) : Int)

/-- `emit_stats` from `backend.rs`: emit the four backend counters, each
converted by `emit_value`, under their statsd metric names. -/
def emit_stats (s : BackendStats) : List (String × Int) :=
  [("backend.refresh_total", emit_value s.refresh_total),
   ("backend.refresh_ok", emit_value s.refresh_ok),
   ("backend.request_total", emit_value s.request_total),
   ("backend.request_ok", emit_value s.request_ok)]

end FcgenMetrics

namespace HttpHeader

/-- A `http::HeaderMap` with values of type `V`, modelled by its observable
content: the list of header names in order of first insertion, each with
the ordered list of values stored under that name. A real `HeaderMap`
keeps each name at most once (`headerGroupsWF`). -/
abbrev HeaderGroups (V : Type) := List (String × List V)

/-- `HeaderMap::append` on the grouped model: push the value at the end of
the name's value list, or add a new singleton group. -/
def appendHeader {V : Type} : HeaderGroups V → String → V → HeaderGroups V
  | [], n, v => [(n, [v])]
  | (k, vs) :: rest, n, v =>
    if k = n then (k, vs ++ [v]) :: rest
    else (k, vs) :: appendHeader rest n v

/-- `HeaderMap::drain`: every value in order, the name present on the
first value of each group and `none` on the following values of the same
group. -/
def drainHeaders {V : Type} : HeaderGroups V → List (Option String × V)
  | [] => []
  | (n, vs) :: rest =>
    (match vs with
     | [] => []
     | v :: tl => (some n, v) :: tl.map (fun w => ((none : Option String), w)))
      ++ drainHeaders rest

/-- `HeaderMap::iter` (as used by `HttpHeaderMap::for_each`): every value
in order, each paired with its name. -/
def iterHeaders {V : Type} : HeaderGroups V → List (String × V)
  | [] => []
  | (n, vs) :: rest => vs.map (fun v => (n, v)) ++ iterHeaders rest

/-- The drain loop of `From<HttpHeaderMap> for HeaderMap` from `map.rs`:
track the last seen name, append named values under their name and
nameless values under the last seen name, and stop (`break`) on a nameless
value before any named one. `f` is the per-value conversion
(`HttpHeaderValue::into`). -/
def from_owned_loop {V W : Type} (f : V → W) :
    Option String → HeaderGroups W → List (Option String × V) → HeaderGroups W
  | _, acc, [] => acc
  | _, acc, (some n, v) :: rest => from_owned_loop f (some n) (appendHeader acc n (f v)) rest
  | some n, acc, (none, v) :: rest => from_owned_loop f (some n) (appendHeader acc n (f v)) rest
  | none, acc, (none, _) :: _ => acc

/-- `From<HttpHeaderMap> for HeaderMap` from `map.rs`: drain the map and
rebuild the result with the last-name loop. -/
def headerMap_from_owned {V W : Type} (f : V → W) (m : HeaderGroups V) : HeaderGroups W :=
  from_owned_loop f none [] (drainHeaders m)

/-- `From<&HttpHeaderMap> for HeaderMap` from `map.rs`: iterate the map and
append every (name, value) pair. -/
def headerMap_from_borrowed {V W : Type} (f : V → W) (m : HeaderGroups V) : HeaderGroups W :=
  (iterHeaders m).foldl (fun acc p => appendHeader acc p.1 (f p.2)) []

/-- The intended content of both conversions: the same groups with every
value converted. -/
def mapHeaderValues {V W : Type} (f : V → W) (m : HeaderGroups V) : HeaderGroups W :=
  m.map (fun g => (g.1, g.2.map f))

/-- The invariant every real `HeaderMap` satisfies in the grouped model:
names are pairwise distinct and no group is empty. -/
def headerGroupsWF {V : Type} (m : HeaderGroups V) : Prop :=
  (m.map Prod.fst).Nodup ∧ ∀ g ∈ m, g.2 ≠ []

end HttpHeader

/-! ## Theorems -/

open Socks5UdpRecv in
theorem check_ctl_stream_preserves_eocc (s : RecvState) (p : CtlProbe) :
    (check_ctl_stream s p).1.end_on_control_closed = s.end_on_control_closed := by
  cases p with
  | pending => rfl
  | readOk n => simp only [check_ctl_stream]; split_ifs <;> rfl
  | readErr e => rfl

open Socks5UdpRecv in
theorem ctl_phase_preserves_eocc (s : RecvState) (p : CtlProbe) :
    (ctl_phase s p).1.end_on_control_closed = s.end_on_control_closed := by
  unfold ctl_phase
  split
  · rfl
  · exact check_ctl_stream_preserves_eocc s p

open Socks5UdpRecv in
theorem recv_phase_preserves_eocc (s : RecvState) (recv : RecvOutcome) (buf : List Nat)
    (h : s.end_on_control_closed = true) :
    (recv_phase s recv buf).1.end_on_control_closed = true := by
  cases recv with
  | pending => simpa [recv_phase] using h
  | recvErr e => simpa [recv_phase] using h
  | recvOk data =>
    cases hp : parse_header (writeInto buf data) <;> simp [recv_phase, hp, h]

open Socks5UdpRecv in
theorem recv_phase_preserves_ignore (s : RecvState) (recv : RecvOutcome) (buf : List Nat) :
    (recv_phase s recv buf).1.ignore_ctl_stream = s.ignore_ctl_stream := by
  cases recv with
  | pending => simp [recv_phase]
  | recvErr e => simp [recv_phase]
  | recvOk data =>
    cases hp : parse_header (writeInto buf data) <;> simp [recv_phase, hp]

/-- Claim C4, confirmed: on a receive call whose control-channel probe is
actually performed (`ignore_ctl_stream = false`) and reads EOF (0 bytes),
with `end_on_control_closed` true the call fails with
`RemoteSessionClosed`; with it false, `ignore_ctl_stream` is set and the
call proceeds to the receive-and-decapsulate phase with that updated
state. -/
theorem early_eof_tolerance (s : Socks5UdpRecv.RecvState)
    (recv : Socks5UdpRecv.RecvOutcome) (buf : List Nat)
    (hig : s.ignore_ctl_stream = false) :
    (s.end_on_control_closed = true →
      Socks5UdpRecv.poll_recv_packet s (.readOk 0) recv buf
        = (s, .ready (.error .RemoteSessionClosed))) ∧
    (s.end_on_control_closed = false →
      Socks5UdpRecv.poll_recv_packet s (.readOk 0) recv buf
        = Socks5UdpRecv.recv_phase { s with ignore_ctl_stream := true } recv buf ∧
      (Socks5UdpRecv.poll_recv_packet s (.readOk 0) recv buf).1.ignore_ctl_stream = true) := by
  constructor
  · intro heocc
    simp [Socks5UdpRecv.poll_recv_packet, Socks5UdpRecv.ctl_phase,
      Socks5UdpRecv.check_ctl_stream, hig, heocc]
  · intro heocc
    have hred : Socks5UdpRecv.poll_recv_packet s (.readOk 0) recv buf
        = Socks5UdpRecv.recv_phase { s with ignore_ctl_stream := true } recv buf := by
      simp [Socks5UdpRecv.poll_recv_packet, Socks5UdpRecv.ctl_phase,
        Socks5UdpRecv.check_ctl_stream, hig, heocc]
    refine ⟨hred, ?_⟩
    rw [hred, recv_phase_preserves_ignore]

/-- Witness for C4 at a concrete input: a tolerated early EOF with a
pending inner socket. -/
theorem early_eof_tolerance_witness :
    Socks5UdpRecv.poll_recv_packet ⟨false, false⟩ (.readOk 0) .pending []
      = Socks5UdpRecv.recv_phase ⟨false, true⟩ .pending [] ∧
    (Socks5UdpRecv.poll_recv_packet ⟨false, false⟩ (.readOk 0) .pending []).1.ignore_ctl_stream
      = true :=
  (early_eof_tolerance ⟨false, false⟩ .pending [] rfl).2 rfl

/-- Counterexample for claim C1 as stated: construct the receiver with
`end_on_control_closed = false`, tolerate an EOF probe, and successfully
decapsulate a datagram in the same call (which also sets
`ignore_ctl_stream`). The next call, in which the control channel is still
at EOF, succeeds instead of failing with `RemoteSessionClosed`, because the
probe is skipped. -/
theorem liveness_after_traffic_cex :
    Socks5UdpRecv.poll_recv_packet ⟨false, false⟩ (.readOk 0)
        (.recvOk Socks5UdpRecv.sampleDatagram) (List.replicate 16 0)
      = (⟨true, true⟩, .ready (.ok (10, 10))) ∧
    Socks5UdpRecv.poll_recv_packet ⟨true, true⟩ (.readOk 0)
        (.recvOk Socks5UdpRecv.sampleDatagram) (List.replicate 16 0)
      = (⟨true, true⟩, .ready (.ok (10, 10))) ∧
    (Socks5UdpRecv.poll_recv_packet ⟨true, true⟩ (.readOk 0)
        (.recvOk Socks5UdpRecv.sampleDatagram) (List.replicate 16 0)).2
      ≠ .ready (.error .RemoteSessionClosed) := by
  refine ⟨rfl, rfl, ?_⟩
  intro h
  exact Socks5UdpRecv.Poll.noConfusion h (fun h2 => Except.noConfusion h2)

/-- Claim C1, amended: after the first successful decapsulation
(`end_on_control_closed = true`), any call that still performs the
control-channel probe (`ignore_ctl_stream = false`) and reads EOF fails
with `RemoteSessionClosed`, for both receive paths; and once
`end_on_control_closed` is true, no call of either path ever resets it. -/
theorem liveness_after_traffic (s : Socks5UdpRecv.RecvState)
    (recv : Socks5UdpRecv.RecvOutcome) (brecv : Socks5UdpRecv.BatchRecvOutcome)
    (buf : List Nat) (heocc : s.end_on_control_closed = true) :
    (s.ignore_ctl_stream = false →
      Socks5UdpRecv.poll_recv_packet s (.readOk 0) recv buf
        = (s, .ready (.error .RemoteSessionClosed)) ∧
      Socks5UdpRecv.poll_recv_packets s (.readOk 0) brecv
        = (s, .ready (.error .RemoteSessionClosed))) ∧
    (∀ probe, (Socks5UdpRecv.poll_recv_packet s probe recv buf).1.end_on_control_closed = true) ∧
    (∀ probe, (Socks5UdpRecv.poll_recv_packets s probe brecv).1.end_on_control_closed = true) := by
  refine ⟨?_, ?_, ?_⟩
  · intro hig
    constructor
    · simp [Socks5UdpRecv.poll_recv_packet, Socks5UdpRecv.ctl_phase,
        Socks5UdpRecv.check_ctl_stream, hig, heocc]
    · simp [Socks5UdpRecv.poll_recv_packets, Socks5UdpRecv.ctl_phase,
        Socks5UdpRecv.check_ctl_stream, hig, heocc]
  · intro probe
    have hc := ctl_phase_preserves_eocc s probe
    rcases hphase : Socks5UdpRecv.ctl_phase s probe with ⟨s1, oe⟩
    rw [hphase] at hc
    have hs1 : s1.end_on_control_closed = true := hc.trans heocc
    cases oe with
    | none =>
      have : (Socks5UdpRecv.poll_recv_packet s probe recv buf)
          = Socks5UdpRecv.recv_phase s1 recv buf := by
        simp [Socks5UdpRecv.poll_recv_packet, hphase]
      rw [this]
      exact recv_phase_preserves_eocc s1 recv buf hs1
    | some e => simp [Socks5UdpRecv.poll_recv_packet, hphase, hs1]
  · intro probe
    have hc := ctl_phase_preserves_eocc s probe
    rcases hphase : Socks5UdpRecv.ctl_phase s probe with ⟨s1, oe⟩
    rw [hphase] at hc
    have hs1 : s1.end_on_control_closed = true := hc.trans heocc
    cases oe with
    | none =>
      cases brecv with
      | pending => simp [Socks5UdpRecv.poll_recv_packets, hphase, hs1]
      | recvErr e => simp [Socks5UdpRecv.poll_recv_packets, hphase, hs1]
      | recvOk ds =>
        cases hpp : Socks5UdpRecv.parse_packets ds <;>
          simp [Socks5UdpRecv.poll_recv_packets, hphase, hpp, hs1]
    | some e => simp [Socks5UdpRecv.poll_recv_packets, hphase, hs1]

/-- Witness for the amended C1 at a concrete input: a receiver that has
seen traffic and still probes fails on EOF. -/
theorem liveness_after_traffic_witness :
    Socks5UdpRecv.poll_recv_packet ⟨true, false⟩ (.readOk 0) .pending []
      = (⟨true, false⟩, .ready (.error .RemoteSessionClosed)) ∧
    Socks5UdpRecv.poll_recv_packets ⟨true, false⟩ (.readOk 0) .pending
      = (⟨true, false⟩, .ready (.error .RemoteSessionClosed)) :=
  (liveness_after_traffic ⟨true, false⟩ .pending .pending [] rfl).1 rfl

/-- Claim C2, confirmed: once any byte has been forwarded to the client
(`total_to_write > 0`), `reply_no_service` performs no client action at
all, for every error value. -/
theorem reply_no_service_noop_after_bytes (g : SmtpGreeting.Greeting)
    (e : SmtpGreeting.GreetingError) (server_ip : String)
    (h : 0 < g.total_to_write) :
    SmtpGreeting.reply_no_service g e server_ip = [] := by
  simp [SmtpGreeting.reply_no_service, h]

/-- Witness for C2 at a concrete input. -/
theorem reply_no_service_noop_after_bytes_witness :
    SmtpGreeting.reply_no_service
        { host := "", rsp := SmtpGreeting.ResponseParser.new, total_to_write := 5 }
        .Timeout "192.0.2.7" = [] :=
  reply_no_service_noop_after_bytes _ _ _ (by decide)

/-- Claim C3, confirmed: with the shared configuration's expiry instant set
and strictly before now, `send_request_header` of both the proxy
absolute-form and the origin-form writer fails with the "expired" error
and writes nothing to the inner writer. -/
theorem send_request_header_expired_writes_nothing
    (w1 : ProxyFloatHttps.HttpsPeerHttpForwardWriter)
    (w2 : ProxyFloatHttps.HttpsPeerHttpRequestWriter)
    (now e1 e2 : Nat) (req : ProxyFloatHttps.HttpProxyClientRequest)
    (h1 : w1.config.expire_instant = some e1) (hlt1 : e1 < now)
    (h2 : w2.config.expire_instant = some e2) (hlt2 : e2 < now) :
    w1.send_request_header now req = ([], .error "connection has expired") ∧
    w2.send_request_header now req = ([], .error "connection has expired") := by
  have k1 : ProxyFloatHttps.config_expired w1.config now = true := by
    simp [ProxyFloatHttps.config_expired, h1, ProxyFloatHttps.checked_duration_since,
      Nat.not_le.mpr hlt1]
  have k2 : ProxyFloatHttps.config_expired w2.config now = true := by
    simp [ProxyFloatHttps.config_expired, h2, ProxyFloatHttps.checked_duration_since,
      Nat.not_le.mpr hlt2]
  constructor
  · simp [ProxyFloatHttps.HttpsPeerHttpForwardWriter.send_request_header, k1]
  · simp [ProxyFloatHttps.HttpsPeerHttpRequestWriter.send_request_header, k2]

/-- Witness for C3 at a concrete input: expiry instant 5, now 10. -/
theorem send_request_header_expired_writes_nothing_witness :
    ProxyFloatHttps.HttpsPeerHttpForwardWriter.send_request_header
        ⟨⟨some 5, ["x-header: 1\r\n"]⟩, "up.example.net:443"⟩ 10 ⟨"GET", "/", []⟩
      = ([], .error "connection has expired") ∧
    ProxyFloatHttps.HttpsPeerHttpRequestWriter.send_request_header
        ⟨⟨some 5, []⟩⟩ 10 ⟨"GET", "/", []⟩
      = ([], .error "connection has expired") :=
  send_request_header_expired_writes_nothing
    ⟨⟨some 5, ["x-header: 1\r\n"]⟩, "up.example.net:443"⟩ ⟨⟨some 5, []⟩⟩
    10 5 5 ⟨"GET", "/", []⟩ rfl (by decide) rfl (by decide)

/-- Claim C7, confirmed: `do_block` returns the fixed administrative
"blocked by inspection policy" error for every behaviour of the two
writers, including failing close-frame writes and shutdowns on either or
both sides. -/
theorem do_block_always_returns_blocked (b : WebsocketH1.BlockIoBehavior) :
    (WebsocketH1.do_block b).2.2
      = .error (.InternalAdapterError "websocket blocked by inspection policy") := rfl

/-- Claim C9, confirmed: `emit_stats` emits the four backend counters,
each converted by saturation — any value above `i64::MAX` is emitted as
`i64::MAX`, every other value unchanged. -/
theorem emit_stats_saturates (s : FcgenMetrics.BackendStats) :
    FcgenMetrics.emit_stats s =
      [("backend.refresh_total",
        if s.refresh_total ≤ FcgenMetrics.I64_MAX then (s.refresh_total : Int)
        else ((FcgenMetrics.I64_MAX : Nat) : Int)),
       ("backend.refresh_ok",
        if s.refresh_ok ≤ FcgenMetrics.I64_MAX then (s.refresh_ok : Int)
        else ((FcgenMetrics.I64_MAX : Nat) : Int)),
       ("backend.request_total",
        if s.request_total ≤ FcgenMetrics.I64_MAX then (s.request_total : Int)
        else ((FcgenMetrics.I64_MAX : Nat) : Int)),
       ("backend.request_ok",
        if s.request_ok ≤ FcgenMetrics.I64_MAX then (s.request_ok : Int)
        else ((FcgenMetrics.I64_MAX : Nat) : Int))] := by
  have he : ∀ v : Nat, FcgenMetrics.emit_value v =
      if v ≤ FcgenMetrics.I64_MAX then (v : Int) else ((FcgenMetrics.I64_MAX : Nat) : Int) := by
    intro v
    unfold FcgenMetrics.emit_value FcgenMetrics.i64_try_from
    split_ifs with h <;> simp [h]
  simp [FcgenMetrics.emit_stats, he]

/-- Claim C5, confirmed: for a service-ready line with host not yet set,
the host token is the message tail up to the first space (or the whole
tail without one); an empty token yields `NoHostField`, a token the host
parser rejects yields `UnsupportedHostFormat`; and the finished line
"220 mail.example.com ESMTP ready\r\n" resolves host mail.example.com and
returns the upstream reader. -/
theorem greeting_host_extraction :
    (∀ (g : SmtpGreeting.Greeting) (msg : List Char), g.host = "" →
      SmtpGreeting.host_token msg = [] →
      SmtpGreeting.handle_service_ready g msg = .error .NoHostField) ∧
    (∀ (g : SmtpGreeting.Greeting) (msg : List Char), g.host = "" →
      SmtpGreeting.host_token msg ≠ [] →
      SmtpGreeting.parse_smtp_host_address (SmtpGreeting.host_token msg) = none →
      SmtpGreeting.handle_service_ready g msg = .error .UnsupportedHostFormat) ∧
    (∀ (msg : List Char) (d : Nat), msg.findIdx? (fun c => c = SmtpGreeting.SP) = some d →
      SmtpGreeting.host_token msg = msg.take d) ∧
    (∀ (msg : List Char), msg.findIdx? (fun c => c = SmtpGreeting.SP) = none →
      SmtpGreeting.host_token msg = msg) ∧
    SmtpGreeting.do_relay SmtpGreeting.Greeting.new
        [.line ("220 mail.example.com ESMTP ready\r\n".toList) none]
      = ({ host := "mail.example.com",
           rsp := { code := 220, finished := true },
           total_to_write := 34 },
         ["220 mail.example.com ESMTP ready\r\n".toList], .ok) := by
  refine ⟨?_, ?_, ?_, ?_, ?_⟩
  · intro g msg hh ht
    simp [SmtpGreeting.handle_service_ready, hh, ht]
  · intro g msg hh ht hp
    simp [SmtpGreeting.handle_service_ready, hh, ht, hp]
  · intro msg d hf
    simp [SmtpGreeting.host_token, hf]
  · intro msg hf
    simp [SmtpGreeting.host_token, hf]
  · rfl

/-- Witness for C5 at a concrete input: an empty message tail yields the
"no host field" error. -/
theorem greeting_host_extraction_witness :
    SmtpGreeting.handle_service_ready SmtpGreeting.Greeting.new [] = .error .NoHostField :=
  greeting_host_extraction.1 SmtpGreeting.Greeting.new [] rfl rfl

/-- Claim C6, confirmed: `relay` flushes the buffered client writer in
every outcome — success, starvation of the input (the model of the
deadline firing, reported as `Timeout`) and every error — except exactly
when the error is a client-write failure, which suppresses the flush; and
it returns `do_relay`'s outcome unchanged. -/
theorem relay_flush_discipline (g : SmtpGreeting.Greeting)
    (inputs : List SmtpGreeting.LineInput) :
    ((∃ m, (SmtpGreeting.relay g inputs).2.2.2 = .error (.ClientWriteFailed m)) →
      (SmtpGreeting.relay g inputs).2.2.1 = false) ∧
    ((∀ m, (SmtpGreeting.relay g inputs).2.2.2 ≠ .error (.ClientWriteFailed m)) →
      (SmtpGreeting.relay g inputs).2.2.1 = true) ∧
    ((SmtpGreeting.do_relay g inputs).2.2 = .starved →
      (SmtpGreeting.relay g inputs).2.2.2 = .error .Timeout) ∧
    ((SmtpGreeting.do_relay g inputs).2.2 = .ok →
      (SmtpGreeting.relay g inputs).2.2.2 = .ok ()) ∧
    (∀ e, (SmtpGreeting.do_relay g inputs).2.2 = .err e →
      (SmtpGreeting.relay g inputs).2.2.2 = .error e) := by
  rcases hdr : SmtpGreeting.do_relay g inputs with ⟨g1, ws, out⟩
  cases out with
  | ok =>
    refine ⟨?_, ?_, ?_, ?_, ?_⟩ <;>
      simp [SmtpGreeting.relay, hdr]
  | starved =>
    refine ⟨?_, ?_, ?_, ?_, ?_⟩ <;>
      simp [SmtpGreeting.relay, hdr]
  | err e =>
    cases e <;> refine ⟨?_, ?_, ?_, ?_, ?_⟩ <;>
      simp [SmtpGreeting.relay, hdr]

/-- Witness for C6 at a concrete input: a client-write failure suppresses
the flush and is returned. -/
theorem relay_flush_discipline_witness :
    (SmtpGreeting.relay SmtpGreeting.Greeting.new
        [.line ("220 x\r\n".toList) (some "broken pipe")]).2.2.1 = false :=
  (relay_flush_discipline SmtpGreeting.Greeting.new
      [.line ("220 x\r\n".toList) (some "broken pipe")]).1 ⟨"broken pipe", rfl⟩

open Socks5UdpRecv in
theorem writeInto_self (d : List Nat) : writeInto d d = d := by
  simp [writeInto]

open Socks5UdpRecv in
theorem parse_packets_all_ok (ds : List (List Nat))
    (h : ∀ d ∈ ds, ∃ off, parse_header d = .ok off) :
    ∃ ms, parse_packets ds = .ok ms ∧ ms.length = ds.length ∧
      ∀ (i : Nat) (d : List Nat), ds[i]? = some d →
        ∃ off, ms[i]? = some (off, d.length) ∧ parse_header d = .ok off := by
  induction ds with
  | nil =>
    refine ⟨[], rfl, rfl, ?_⟩
    intro i d hd
    simp at hd
  | cons d rest ih =>
    obtain ⟨off, hoff⟩ := h d (by simp)
    obtain ⟨ms, hms, hlen, hidx⟩ := ih (fun d2 hd2 => h d2 (by simp [hd2]))
    refine ⟨(off, d.length) :: ms, ?_, by simp [hlen], ?_⟩
    · unfold parse_packets
      rw [hoff, hms]
    · intro i d2 hd2
      cases i with
      | zero =>
        simp at hd2
        subst hd2
        exact ⟨off, by simp, hoff⟩
      | succ n =>
        simp at hd2
        obtain ⟨off2, h1, h2⟩ := hidx n d2 hd2
        exact ⟨off2, by simpa using h1, h2⟩

open Socks5UdpRecv in
theorem parse_packets_first_error (ds : List (List Nat)) (i : Nat) (d : List Nat)
    (e : String) (hd : ds[i]? = some d) (he : parse_header d = .error e)
    (hpre : ∀ (j : Nat) (dj : List Nat), j < i → ds[j]? = some dj → ∃ off, parse_header dj = .ok off) :
    parse_packets ds = .error (.InvalidPacket e) := by
  induction ds generalizing i with
  | nil => simp at hd
  | cons d0 rest ih =>
    cases i with
    | zero =>
      simp at hd
      subst hd
      unfold parse_packets
      rw [he]
    | succ n =>
      simp at hd
      obtain ⟨off0, hoff0⟩ := hpre 0 d0 (Nat.succ_pos n) (by simp)
      have hrest := ih n hd
        (fun j dj hj hdj => hpre (j + 1) dj (Nat.succ_lt_succ hj) (by simpa using hdj))
      unfold parse_packets
      rw [hoff0, hrest]

/-- Claim C8, confirmed: the batched path has the single-packet path's
per-packet parsing semantics — it handles the control-channel probe once,
exactly as the single path does, before any receive; on success every
packet's (offset, length) metadata equals what `poll_recv_packet` returns
when that datagram is received on its own; and the first malformed header
fails the whole batch with the same `InvalidPacket` error the single path
gives for that datagram. -/
theorem poll_recv_packets_refines_single (s : Socks5UdpRecv.RecvState)
    (probe : Socks5UdpRecv.CtlProbe) (ds : List (List Nat)) :
    (∀ s1 e, Socks5UdpRecv.ctl_phase s probe = (s1, some e) →
      Socks5UdpRecv.poll_recv_packets s probe (.recvOk ds) = (s1, .ready (.error e)) ∧
      ∀ recv buf, Socks5UdpRecv.poll_recv_packet s probe recv buf
        = (s1, .ready (.error e))) ∧
    (∀ s1, Socks5UdpRecv.ctl_phase s probe = (s1, none) →
      ((∀ d ∈ ds, ∃ off, Socks5UdpRecv.parse_header d = .ok off) →
        ∃ ms, Socks5UdpRecv.poll_recv_packets s probe (.recvOk ds)
            = ({ s1 with end_on_control_closed := true }, .ready (.ok ms)) ∧
          ms.length = ds.length ∧
          ∀ (i : Nat) (d : List Nat), ds[i]? = some d →
            ∃ off, ms[i]? = some (off, d.length) ∧
              Socks5UdpRecv.poll_recv_packet s probe (.recvOk d) d
                = ({ s1 with end_on_control_closed := true }, .ready (.ok (off, d.length)))) ∧
      (∀ (i : Nat) (d : List Nat) (e : String), ds[i]? = some d → Socks5UdpRecv.parse_header d = .error e →
        (∀ (j : Nat) (dj : List Nat), j < i → ds[j]? = some dj →
          ∃ off, Socks5UdpRecv.parse_header dj = .ok off) →
        Socks5UdpRecv.poll_recv_packets s probe (.recvOk ds)
          = (s1, .ready (.error (.InvalidPacket e))) ∧
        Socks5UdpRecv.poll_recv_packet s probe (.recvOk d) d
          = (s1, .ready (.error (.InvalidPacket e))))) := by
  constructor
  · intro s1 e h
    refine ⟨?_, ?_⟩
    · simp [Socks5UdpRecv.poll_recv_packets, h]
    · intro recv buf
      simp [Socks5UdpRecv.poll_recv_packet, h]
  · intro s1 h
    constructor
    · intro hall
      obtain ⟨ms, hms, hlen, hidx⟩ := parse_packets_all_ok ds hall
      refine ⟨ms, ?_, hlen, ?_⟩
      · simp [Socks5UdpRecv.poll_recv_packets, h, hms]
      · intro i d hd
        obtain ⟨off, h1, h2⟩ := hidx i d hd
        refine ⟨off, h1, ?_⟩
        simp [Socks5UdpRecv.poll_recv_packet, h, Socks5UdpRecv.recv_phase,
          writeInto_self, h2]
    · intro i d e hd he hpre
      have hpp := parse_packets_first_error ds i d e hd he hpre
      refine ⟨?_, ?_⟩
      · simp [Socks5UdpRecv.poll_recv_packets, h, hpp]
      · simp [Socks5UdpRecv.poll_recv_packet, h, Socks5UdpRecv.recv_phase,
          writeInto_self, he]

/-- Witness for C8 at a concrete input: a failing control-stream probe
makes both paths fail identically before any receive. -/
theorem poll_recv_packets_refines_single_witness :
    Socks5UdpRecv.poll_recv_packets ⟨false, false⟩ (.readErr "reset")
        (.recvOk [Socks5UdpRecv.sampleDatagram])
      = (⟨false, false⟩, .ready (.error (.RemoteSessionError "reset"))) ∧
    Socks5UdpRecv.poll_recv_packet ⟨false, false⟩ (.readErr "reset")
        (.recvOk Socks5UdpRecv.sampleDatagram) Socks5UdpRecv.sampleDatagram
      = (⟨false, false⟩, .ready (.error (.RemoteSessionError "reset"))) := by
  have h := (poll_recv_packets_refines_single ⟨false, false⟩ (.readErr "reset")
      [Socks5UdpRecv.sampleDatagram]).1 ⟨false, false⟩ (.RemoteSessionError "reset") rfl
  exact ⟨h.1, h.2 (.recvOk Socks5UdpRecv.sampleDatagram) Socks5UdpRecv.sampleDatagram⟩

open HttpHeader in
theorem appendHeader_not_mem {V : Type} (acc : HeaderGroups V) (n : String) (v : V)
    (h : n ∉ acc.map Prod.fst) : appendHeader acc n v = acc ++ [(n, [v])] := by
  induction acc with
  | nil => rfl
  | cons g rest ih =>
    obtain ⟨k, vs⟩ := g
    simp only [List.map_cons, List.mem_cons] at h
    push_neg at h
    have hk : ¬ k = n := fun hkn => h.1 hkn.symm
    simp only [appendHeader, if_neg hk, List.cons_append, List.cons.injEq, true_and]
    exact ih h.2

open HttpHeader in
theorem appendHeader_last {V : Type} (acc : HeaderGroups V) (n : String) (vs : List V)
    (v : V) (h : n ∉ acc.map Prod.fst) :
    appendHeader (acc ++ [(n, vs)]) n v = acc ++ [(n, vs ++ [v])] := by
  induction acc with
  | nil => simp [appendHeader]
  | cons g rest ih =>
    obtain ⟨k, ws⟩ := g
    simp only [List.map_cons, List.mem_cons] at h
    push_neg at h
    have hk : ¬ k = n := fun hkn => h.1 hkn.symm
    simp only [List.cons_append, appendHeader, if_neg hk, List.cons.injEq, true_and]
    exact ih h.2

open HttpHeader in
theorem foldl_append_group {V W : Type} (f : V → W) (n : String) (tl : List V)
    (acc : HeaderGroups W) (ws : List W) (h : n ∉ acc.map Prod.fst) :
    (tl.map (fun v => (n, v))).foldl (fun a p => appendHeader a p.1 (f p.2)) (acc ++ [(n, ws)])
      = acc ++ [(n, ws ++ tl.map f)] := by
  induction tl generalizing ws with
  | nil => simp
  | cons v tl ih =>
    simp only [List.map_cons, List.foldl_cons]
    rw [appendHeader_last acc n ws (f v) h, ih (ws ++ [f v])]
    simp

open HttpHeader in
theorem from_borrowed_general {V W : Type} (f : V → W) (m : HeaderGroups V)
    (acc : HeaderGroups W) (hdisj : ∀ g ∈ m, g.1 ∉ acc.map Prod.fst)
    (hwf : headerGroupsWF m) :
    (iterHeaders m).foldl (fun a p => appendHeader a p.1 (f p.2)) acc
      = acc ++ mapHeaderValues f m := by
  induction m generalizing acc with
  | nil => simp [iterHeaders, mapHeaderValues]
  | cons g rest ih =>
    obtain ⟨n, vs⟩ := g
    obtain ⟨hnd, hne⟩ := hwf
    cases vs with
    | nil => exact absurd rfl (hne (n, []) (by simp))
    | cons v tl =>
      have h1 : n ∉ acc.map Prod.fst := hdisj (n, v :: tl) (by simp)
      have hstep : appendHeader acc n (f v) = acc ++ [(n, [f v])] :=
        appendHeader_not_mem acc n (f v) h1
      have hnd2 : (n :: rest.map Prod.fst).Nodup := by simpa using hnd
      have hnotrest : n ∉ rest.map Prod.fst := (List.nodup_cons.mp hnd2).1
      simp only [iterHeaders, List.foldl_append, List.map_cons, List.foldl_cons]
      rw [hstep, foldl_append_group f n tl acc [f v] h1]
      have hrest : ∀ g ∈ rest, g.1 ∉ (acc ++ [(n, [f v] ++ tl.map f)]).map Prod.fst := by
        intro g hg
        simp only [List.map_append, List.mem_append, List.map_cons, List.map_nil,
          List.mem_singleton]
        push_neg
        refine ⟨fun hmem => hdisj g (by simp [hg]) hmem, ?_⟩
        intro hgn
        exact hnotrest (hgn ▸ List.mem_map_of_mem Prod.fst hg)
      rw [ih (acc ++ [(n, [f v] ++ tl.map f)]) hrest
        ⟨(List.nodup_cons.mp hnd2).2, fun g hg => hne g (by simp [hg])⟩]
      simp [mapHeaderValues]

open HttpHeader in
theorem from_owned_loop_group {V W : Type} (f : V → W) (n : String) (tl : List V)
    (acc : HeaderGroups W) (ws : List W) (suffix : List (Option String × V))
    (h : n ∉ acc.map Prod.fst) :
    from_owned_loop f (some n) (acc ++ [(n, ws)])
        ((tl.map fun w => ((none : Option String), w)) ++ suffix)
      = from_owned_loop f (some n) (acc ++ [(n, ws ++ tl.map f)]) suffix := by
  induction tl generalizing ws with
  | nil => simp
  | cons v tl ih =>
    simp only [List.map_cons, List.cons_append, from_owned_loop, List.append_eq]
    rw [appendHeader_last acc n ws (f v) h, ih (ws ++ [f v])]
    simp

open HttpHeader in
theorem from_owned_general {V W : Type} (f : V → W) (m : HeaderGroups V)
    (acc : HeaderGroups W) (lastName : Option String)
    (hdisj : ∀ g ∈ m, g.1 ∉ acc.map Prod.fst)
    (hwf : headerGroupsWF m) :
    from_owned_loop f lastName acc (drainHeaders m) = acc ++ mapHeaderValues f m := by
  induction m generalizing acc lastName with
  | nil =>
    cases lastName <;> simp [drainHeaders, mapHeaderValues, from_owned_loop]
  | cons g rest ih =>
    obtain ⟨n, vs⟩ := g
    obtain ⟨hnd, hne⟩ := hwf
    cases vs with
    | nil => exact absurd rfl (hne (n, []) (by simp))
    | cons v tl =>
      have h1 : n ∉ acc.map Prod.fst := hdisj (n, v :: tl) (by simp)
      have hnd2 : (n :: rest.map Prod.fst).Nodup := by simpa using hnd
      have hnotrest : n ∉ rest.map Prod.fst := (List.nodup_cons.mp hnd2).1
      simp only [drainHeaders, List.cons_append, from_owned_loop, List.append_eq]
      rw [appendHeader_not_mem acc n (f v) h1,
        from_owned_loop_group f n tl acc [f v] (drainHeaders rest) h1]
      have hrest : ∀ g ∈ rest, g.1 ∉ (acc ++ [(n, [f v] ++ tl.map f)]).map Prod.fst := by
        intro g hg
        simp only [List.map_append, List.mem_append, List.map_cons, List.map_nil,
          List.mem_singleton]
        push_neg
        refine ⟨fun hmem => hdisj g (by simp [hg]) hmem, ?_⟩
        intro hgn
        exact hnotrest (hgn ▸ List.mem_map_of_mem Prod.fst hg)
      rw [ih (acc ++ [(n, [f v] ++ tl.map f)]) (some n) hrest
        ⟨(List.nodup_cons.mp hnd2).2, fun g hg => hne g (by simp [hg])⟩]
      simp [mapHeaderValues]

/-- Claim C10, confirmed: on every well-formed header map (distinct names,
no empty value group) the owned conversion (drain loop) and the borrowed
conversion (iterate and append) build the same header map, namely the
original associations with every value converted and the per-name value
order preserved. -/
theorem header_map_conversions_agree {V W : Type} (f : V → W)
    (m : HttpHeader.HeaderGroups V) (hwf : HttpHeader.headerGroupsWF m) :
    HttpHeader.headerMap_from_owned f m = HttpHeader.headerMap_from_borrowed f m ∧
    HttpHeader.headerMap_from_owned f m = HttpHeader.mapHeaderValues f m ∧
    HttpHeader.headerMap_from_borrowed f m = HttpHeader.mapHeaderValues f m := by
  have h1 : HttpHeader.headerMap_from_owned f m = HttpHeader.mapHeaderValues f m := by
    unfold HttpHeader.headerMap_from_owned
    simpa using from_owned_general f m [] none (by simp) hwf
  have h2 : HttpHeader.headerMap_from_borrowed f m = HttpHeader.mapHeaderValues f m := by
    unfold HttpHeader.headerMap_from_borrowed
    simpa using from_borrowed_general f m [] (by simp) hwf
  exact ⟨h1.trans h2.symm, h1, h2⟩

/-- Witness for C10 at a concrete input: a map with a repeated name. -/
theorem header_map_conversions_agree_witness :
    HttpHeader.headerMap_from_owned (fun v : Nat => v + 1)
        [("set-cookie", [1, 2]), ("host", [3])]
      = HttpHeader.headerMap_from_borrowed (fun v : Nat => v + 1)
        [("set-cookie", [1, 2]), ("host", [3])] ∧
    HttpHeader.headerMap_from_owned (fun v : Nat => v + 1)
        [("set-cookie", [1, 2]), ("host", [3])]
      = [("set-cookie", [2, 3]), ("host", [4])] := by
  have h := header_map_conversions_agree (fun v : Nat => v + 1)
    [("set-cookie", [1, 2]), ("host", [3])] ⟨by decide, by decide⟩
  exact ⟨h.1, h.2.1.trans (by rfl)⟩

end G3

